import Mathlib

/-!
# Verification of the consul-observability three-tier service chain

Shallow embedding of the three Flask services of this repository:

* `db-api`      (src/docker/services/db-api/app.py)      — the data tier
* `backend-api` (src/docker/services/backend-api/app.py) — the mid tier
* `example-app` (src/docker/services/example-app/app.py) — the front tier

Randomness (`random.random`, `random.uniform`) is embedded as explicit
oracle arguments; wall-clock sleeping is embedded as a latency value that
handlers compute but do not act on; HTTP is embedded as explicit
request/response values, with `Except` for a handler that raises an
uncaught exception (which the Flask framework converts to a 500 response).
-/

/-! ## JSON-like values -/

/-- Scalar JSON values occurring in the services' payloads. -/
inductive JVal where
  | jint : Int → JVal
  | jq : ℚ → JVal
  | js : String → JVal
deriving DecidableEq

/-- A JSON object with scalar fields, i.e. a Python dict such as one
record of `RECORDS` in db-api. Key order is significant, as in Python
dicts. -/
abbrev Row : Type := List (String × JVal)

/-- Embeds the Python dict-merge `\x7b**row, k: v\x7d`: if `k` is already a
key of `row` its value is replaced in place, otherwise the pair `(k, v)`
is appended at the end (Python 3.7+ dict ordering). -/
def dictInsert (row : Row) (k : String) (v : JVal) : Row :=
  if (List.lookup k row).isSome then
    row.map (fun kv => if kv.1 = k then (k, v) else kv)
  else
    row ++ [(k, v)]

/-! ## db-api: the data tier -/

namespace DbApi

/-- The fixed in-memory data store `RECORDS` of db-api (app.py lines 43-49). -/
def RECORDS : List Row :=
  [ [("id", .jint 1), ("name", .js "widget"),      ("stock", .jint 142), ("warehouse", .js "A")],
    [("id", .jint 2), ("name", .js "gadget"),      ("stock", .jint 87),  ("warehouse", .js "B")],
    [("id", .jint 3), ("name", .js "doohickey"),   ("stock", .jint 34),  ("warehouse", .js "A")],
    [("id", .jint 4), ("name", .js "thingamajig"), ("stock", .jint 210), ("warehouse", .js "C")],
    [("id", .jint 5), ("name", .js "whatsit"),     ("stock", .jint 6),   ("warehouse", .js "B")] ]

/-- Embeds the Python slice `l[:limit]` for an arbitrary integer `limit`:
a nonnegative `limit` takes the first `limit` elements (clamped at the
length); a negative `limit` takes everything up to index `len + limit`,
clamped at zero. -/
def pySliceTo {α : Type} (l : List α) (limit : Int) : List α :=
  if 0 ≤ limit then l.take limit.toNat
  else l.take (l.length - limit.natAbs)

/-- All-digit parser underlying `pyInt?`: `none` unless the character list
is nonempty and entirely decimal digits. -/
def parseDigits (cs : List Char) : Option Nat :=
  if cs = [] then none
  else cs.foldl
    (fun acc c => acc.bind (fun n => if c.isDigit then some (10 * n + (c.toNat - 48)) else none))
    (some 0)

/-- Embeds the Python builtin `int(s)` on a string argument: an optional
sign followed by at least one decimal digit; anything else raises
`ValueError`, embedded as `none`. (Python additionally strips surrounding
whitespace and accepts digit-group underscores; those lexical extensions
are not exercised by this repository and are omitted.) -/
def pyInt? (s : String) : Option Int :=
  match s.toList with
  | [] => none
  | '-' :: rest => (parseDigits rest).map (fun n => -(n : Int))
  | '+' :: rest => (parseDigits rest).map (fun n => (n : Int))
  | cs => (parseDigits cs).map (fun n => (n : Int))

/-- The latency sampling of db-api `query` (app.py lines 78-85): given the
draw `roll` of `random.random()` and the `random.uniform` oracle `u`,
returns the sampled latency in seconds together with whether the
`db.slow_query` span attribute was set. -/
def querySample (roll : ℚ) (u : ℚ → ℚ → ℚ) : ℚ × Bool :=
  if roll < 80/100 then (u (10/1000) (30/1000), false)
  else if roll < 95/100 then (u (30/1000) (80/1000), false)
  else (u (80/1000) (300/1000), true)

/-- The contract of `random.uniform a b`: a result in `[a, b]`. -/
def UniformOracle (u : ℚ → ℚ → ℚ) : Prop :=
  ∀ a b : ℚ, a ≤ b → a ≤ u a b ∧ u a b ≤ b

end DbApi

/-- Embeds Python round-half-to-even of a rational to the nearest integer,
as used by the builtin `round`. -/
def bankersRound (x : ℚ) : ℤ :=
  if x - ⌊x⌋ < 1/2 then ⌊x⌋
  else if 1/2 < x - ⌊x⌋ then ⌊x⌋ + 1
  else if ⌊x⌋ % 2 = 0 then ⌊x⌋ else ⌊x⌋ + 1

/-- Embeds the Python `round(x, 2)` to two decimal places. -/
def pyRound2 (x : ℚ) : ℚ := (bankersRound (100 * x) : ℚ) / 100

namespace DbApi

/-- The response body of db-api `/query` (app.py lines 94-99). -/
structure QueryResult where
  table : String
  rows : List Row
  count : Nat
  queryTimeMs : ℚ
deriving DecidableEq

/-- The body of db-api `query` after the `limit` parameter has been parsed
(app.py lines 71-99): sample the latency tier, slice the record set, and
build the response; `count` is `len(results)` and `query_time_ms` is the
sampled latency converted to milliseconds and rounded to two places. -/
def queryCore (table : String) (limit : Int) (roll : ℚ) (u : ℚ → ℚ → ℚ) : QueryResult :=
  let latency := (querySample roll u).1
  let results := pySliceTo RECORDS limit
  { table := table
    rows := results
    count := results.length
    queryTimeMs := pyRound2 (latency * 1000) }

/-- The db-api `query` handler (app.py lines 64-99). `tableParam` and
`limitParam` are the raw query-string parameters; a missing `table`
defaults to "products" and a missing `limit` to `len(RECORDS)`.
A `limit` value that `int()` cannot parse raises `ValueError`, which
nothing in the handler catches: the handler errors. -/
def query (tableParam limitParam : Option String) (roll : ℚ) (u : ℚ → ℚ → ℚ) :
    Except String QueryResult :=
  let table := tableParam.getD "products"
  let limit? := match limitParam with
    | none => some (RECORDS.length : Int)
    | some s => pyInt? s
  match limit? with
  | none => .error "ValueError"
  | some limit => .ok (queryCore table limit roll u)

end DbApi

/-- Status code of the HTTP response the Flask framework produces from a
handler outcome: a normal return is a 200 JSON response, and an exception
that escapes the handler is converted by Flask's default error handling
into a 500 Internal Server Error response (the worker process keeps
serving). -/
def flaskStatus {α : Type} : Except String α → Nat
  | .ok _ => 200
  | .error _ => 500

/-- 4xx status codes. -/
def isClientError (status : Nat) : Prop := 400 ≤ status ∧ status < 500

/-- 5xx status codes. -/
def isServerError (status : Nat) : Prop := 500 ≤ status ∧ status < 600

/-! ## backend-api: the mid tier -/

/-- A field value in a downstream JSON response body: either an array of
row objects or a scalar. -/
inductive BodyVal where
  | arr : List Row → BodyVal
  | val : JVal → BodyVal
deriving DecidableEq

/-- A parsed downstream JSON response body: a top-level object. A
downstream call that fails (connection error, timeout, or a body
`resp.json()` cannot parse) is embedded as `Except.error` at the call
site. -/
abbrev Body : Type := List (String × BodyVal)

/-- Embeds `db_data.get(k, [])` followed by the handler's use of the value
as a list of rows: an absent key yields the default `[]`; a present key of
the expected array shape yields its rows; a present key of a scalar shape
makes the subsequent iteration raise `TypeError` (uncaught). -/
def getRowsD (body : Body) (k : String) : Except String (List Row) :=
  match List.lookup k body with
  | none => .ok []
  | some (.arr rs) => .ok rs
  | some (.val _) => .error "TypeError"

namespace BackendApi

/-- Enrichment loop of backend-api `data` (app.py lines 66-69): the list
comprehension makes one `random.uniform(1.99, 49.99)` draw per row, in
order (`price i` is the i-th draw), rounds it to two places, and builds a
new dict from the old row plus the "price" key. -/
def enrichFrom (price : Nat → ℚ) : Nat → List Row → List Row
  | _, [] => []
  | i, row :: rest =>
      dictInsert row "price" (.jq (pyRound2 (price i))) :: enrichFrom price (i + 1) rest

/-- The output rows of `data`: `enrichFrom` starting at draw index 0. -/
def enrich (rows : List Row) (price : Nat → ℚ) : List Row := enrichFrom price 0 rows

/-- The response body of backend-api `/data` (app.py line 71). -/
structure MidDataResp where
  items : List Row
  count : Nat
deriving DecidableEq

/-- The backend-api `data` handler (app.py lines 51-71). `downstream` is
the outcome of `requests.get(DB_URL + "/query", timeout=5)` followed by
`resp.json()`: an error there (downstream unavailable, timeout, or
unparseable body) escapes the handler. From a parsed body the handler
takes `rows = db_data.get("rows", [])`, enriches each row with a price,
and returns items plus their count. -/
def data (downstream : Except String Body) (price : Nat → ℚ) :
    Except String MidDataResp :=
  match downstream with
  | .error e => .error e
  | .ok db_data =>
      match getRowsD db_data "rows" with
      | .error e => .error e
      | .ok rows =>
          let enriched := enrich rows price
          .ok { items := enriched, count := enriched.length }

/-- The backend-api `compute` handler (app.py lines 74-83). `stall` is the
outcome of `random.random() < 0.10`; it only adds a 200ms sleep before the
sum, embedded as the first component (extra elapsed seconds). The result
is `sum(i ** 2 for i in range(2000))` and the status is "ok" on every
path. -/
def compute (stall : Bool) : ℚ × Nat × String :=
  let extraDelay : ℚ := if stall then 200/1000 else 0
  let result := ((List.range 2000).map (fun i => i ^ 2)).sum
  (extraDelay, result, "ok")

/-- The backend-api `schema` handler (app.py lines 86-91): one downstream
call to db-api `/schema`, whose parsed body is returned as-is; an error of
the downstream call escapes the handler uncaught. -/
def schema (downstream : Except String Body) : Except String Body :=
  match downstream with
  | .error e => .error e
  | .ok b => .ok b

end BackendApi

/-! ## example-app: the front tier -/

namespace ExampleApp

/-- Embeds `resp.json().get("result", 0)` in the `work` handler: an absent
key yields the default 0; an unexpected non-scalar shape there would make
`jsonify` still serialize it, so any present value is taken as-is, with
arrays collapsed to their row count being irrelevant here — the key, when
present in a backend-api response, holds a scalar. -/
def getResultD (body : Body) : JVal :=
  match List.lookup "result" body with
  | none => .jint 0
  | some (.val v) => v
  | some (.arr _) => .jint 0

/-- The response body of example-app `/work` (app.py line 80). -/
structure WorkResp where
  items : List Row
  result : JVal
  status : String
deriving DecidableEq

/-- The example-app `work` handler (app.py lines 63-80). `dataResp` and
`computeResp` are the outcomes of the two sequential downstream calls to
backend-api `/data` and `/compute` (each `requests.get` plus
`resp.json()`); an error of either escapes the handler. From parsed
bodies the handler takes `items = resp.json().get("items", [])` and
`result = resp.json().get("result", 0)` and combines them with status
"ok". -/
def work (dataResp : Except String Body) (computeResp : Except String Body) :
    Except String WorkResp :=
  match dataResp with
  | .error e => .error e
  | .ok dbody =>
      match getRowsD dbody "items" with
      | .error e => .error e
      | .ok items =>
          match computeResp with
          | .error e => .error e
          | .ok cbody =>
              .ok { items := items, result := getResultD cbody, status := "ok" }

end ExampleApp

/-! ## Trace model: spans and context propagation

The span lifecycle and trace-context propagation live in the OpenTelemetry
SDK and its Flask / requests instrumentation, configured but not
implemented in this repository; they are modelled from the spec
(sections 4.1 and 4.2). Which spans each handler opens, in which nesting,
and which downstream calls it makes, are embedded from the three app.py
sources. -/

/-- A recorded span: trace id, span id, optional parent span id, owning
service identity, and operation name. -/
structure Span where
  traceId : Nat
  spanId : Nat
  parent : Option Nat
  service : String
  name : String

/-- Modelled from the spec: the trace context propagated by value across
a process boundary (spec section 4.2) — the trace id and the span id of
the caller's current span. -/
structure Ctx where
  traceId : Nat
  spanId : Nat

/-- Span-id supply and accumulated spans of one trace under construction. -/
structure TraceState where
  nextId : Nat
  spans : List Span

/-- Modelled from the spec: `startSpan` of the tracer contract (spec
section 4.1) — creates a span as a child of the given parent context
(or a root span when there is none), carrying the current trace id; the
child context for nested work points at the new span. -/
def newSpan (st : TraceState) (tid : Nat) (parent : Option Nat)
    (service name : String) : Span × TraceState :=
  let s : Span := { traceId := tid, spanId := st.nextId, parent := parent,
                    service := service, name := name }
  (s, { nextId := st.nextId + 1, spans := st.spans ++ [s] })

namespace DbApi

/-- Spans recorded at db-api for one inbound `/query` request carrying
context `ctx` (app.py lines 64-99): the server span created by the Flask
instrumentation as a child of the propagated context (modelled from spec
section 4.2), then `db.query` and, nested inside it, `db.execute`. -/
def querySpans (ctx : Ctx) (st : TraceState) : TraceState :=
  let (srv, st) := newSpan st ctx.traceId (some ctx.spanId) "db-api" "GET /query"
  let (q, st) := newSpan st ctx.traceId (some srv.spanId) "db-api" "db.query"
  let (_, st) := newSpan st ctx.traceId (some q.spanId) "db-api" "db.execute"
  st

end DbApi

namespace BackendApi

/-- Spans recorded for one inbound backend-api `/data` request carrying
context `ctx` (app.py lines 51-71): the instrumentation server span, then
`backend.fetch-data`, inside it `backend.call-db` wrapping the
instrumented outbound HTTP call to db-api `/query` (whose client span's
context propagates to db-api), then `backend.enrich`. -/
def dataSpans (ctx : Ctx) (st : TraceState) : TraceState :=
  let (srv, st) := newSpan st ctx.traceId (some ctx.spanId) "backend-api" "GET /data"
  let (fd, st) := newSpan st ctx.traceId (some srv.spanId) "backend-api" "backend.fetch-data"
  let (cd, st) := newSpan st ctx.traceId (some fd.spanId) "backend-api" "backend.call-db"
  let (cl, st) := newSpan st ctx.traceId (some cd.spanId) "backend-api" "HTTP GET"
  let st := DbApi.querySpans { traceId := ctx.traceId, spanId := cl.spanId } st
  let (_, st) := newSpan st ctx.traceId (some fd.spanId) "backend-api" "backend.enrich"
  st

/-- Spans recorded for one inbound backend-api `/compute` request carrying
context `ctx` (app.py lines 74-83): the instrumentation server span, then
`backend.compute` with `backend.heavy-work` nested inside it. -/
def computeSpans (ctx : Ctx) (st : TraceState) : TraceState :=
  let (srv, st) := newSpan st ctx.traceId (some ctx.spanId) "backend-api" "GET /compute"
  let (c, st) := newSpan st ctx.traceId (some srv.spanId) "backend-api" "backend.compute"
  let (_, st) := newSpan st ctx.traceId (some c.spanId) "backend-api" "backend.heavy-work"
  st

end BackendApi

namespace ExampleApp

/-- The full span tree of one successful client request to example-app
`/work` with no incoming trace context (app.py lines 63-80): the Flask
instrumentation starts a new root trace (modelled from spec section 4.2,
case of absent inbound context) with the fresh trace id `tid`; the handler
opens `handle-work`, then `call-backend-data` wrapping the instrumented
call to backend-api `/data`, then `call-backend-compute` wrapping the
instrumented call to backend-api `/compute`. -/
def workTrace (tid : Nat) : List Span :=
  let st0 : TraceState := { nextId := 0, spans := [] }
  let (srv, st) := newSpan st0 tid none "example-app" "GET /work"
  let (hw, st) := newSpan st tid (some srv.spanId) "example-app" "handle-work"
  let (cbd, st) := newSpan st tid (some hw.spanId) "example-app" "call-backend-data"
  let (cl1, st) := newSpan st tid (some cbd.spanId) "example-app" "HTTP GET"
  let st := BackendApi.dataSpans { traceId := tid, spanId := cl1.spanId } st
  let (cbc, st) := newSpan st tid (some hw.spanId) "example-app" "call-backend-compute"
  let (cl2, st) := newSpan st tid (some cbc.spanId) "example-app" "HTTP GET"
  let st := BackendApi.computeSpans { traceId := tid, spanId := cl2.spanId } st
  st.spans

end ExampleApp

/-- Ancestor span ids of the span with id `sid` in `spans`, following
parent links with explicit fuel. -/
def ancestorChain (spans : List Span) : Nat → Nat → List Nat
  | 0, _ => []
  | fuel + 1, sid =>
      match (spans.find? (fun s => s.spanId == sid)).bind Span.parent with
      | none => []
      | some p => p :: ancestorChain spans fuel p

/-- `s` is a proper descendant of the span with id `rootId` in `spans`. -/
def descendsFrom (spans : List Span) (rootId : Nat) (s : Span) : Bool :=
  (ancestorChain spans spans.length s.spanId).contains rootId

/-- The explicit span list that one `/work` request produces, used as the
normal form of `ExampleApp.workTrace` in proofs. -/
def workSpanList (tid : Nat) : List Span :=
  [ ⟨tid, 0, none, "example-app", "GET /work"⟩,
    ⟨tid, 1, some 0, "example-app", "handle-work"⟩,
    ⟨tid, 2, some 1, "example-app", "call-backend-data"⟩,
    ⟨tid, 3, some 2, "example-app", "HTTP GET"⟩,
    ⟨tid, 4, some 3, "backend-api", "GET /data"⟩,
    ⟨tid, 5, some 4, "backend-api", "backend.fetch-data"⟩,
    ⟨tid, 6, some 5, "backend-api", "backend.call-db"⟩,
    ⟨tid, 7, some 6, "backend-api", "HTTP GET"⟩,
    ⟨tid, 8, some 7, "db-api", "GET /query"⟩,
    ⟨tid, 9, some 8, "db-api", "db.query"⟩,
    ⟨tid, 10, some 9, "db-api", "db.execute"⟩,
    ⟨tid, 11, some 5, "backend-api", "backend.enrich"⟩,
    ⟨tid, 12, some 1, "example-app", "call-backend-compute"⟩,
    ⟨tid, 13, some 12, "example-app", "HTTP GET"⟩,
    ⟨tid, 14, some 13, "backend-api", "GET /compute"⟩,
    ⟨tid, 15, some 14, "backend-api", "backend.compute"⟩,
    ⟨tid, 16, some 15, "backend-api", "backend.heavy-work"⟩ ]

/-! ## Helper lemmas -/

theorem workTrace_eq_workSpanList (tid : Nat) :
    ExampleApp.workTrace tid = workSpanList tid := by
  simp [ExampleApp.workTrace, BackendApi.dataSpans, BackendApi.computeSpans,
        DbApi.querySpans, newSpan, workSpanList]

theorem lookup_append_of_lookup_none {β : Type} (k : String) (v : β)
    (l : List (String × β)) (h : l.lookup k = none) :
    (l ++ [(k, v)]).lookup k = some v := by
  induction l with
  | nil => simp [List.lookup]
  | cons hd tl ih =>
      obtain ⟨k', v'⟩ := hd
      by_cases hk : k = k'
      · subst hk; simp [List.lookup] at h
      · have hbeq : (k == k') = false := beq_eq_false_iff_ne.mpr hk
        simp only [List.cons_append, List.lookup, hbeq] at h ⊢
        exact ih h

theorem lookup_map_replace (k : String) (v : JVal) (row : Row)
    (h : (row.lookup k).isSome) :
    (row.map (fun kv => if kv.1 = k then (k, v) else kv)).lookup k = some v := by
  induction row with
  | nil => simp [List.lookup] at h
  | cons hd tl ih =>
      obtain ⟨k', v'⟩ := hd
      simp only [List.map_cons]
      by_cases hk : k' = k
      · subst hk
        rw [if_pos rfl]
        simp [List.lookup]
      · rw [if_neg hk]
        have hbeq : (k == k') = false := beq_eq_false_iff_ne.mpr (Ne.symm hk)
        simp only [List.lookup, hbeq] at h ⊢
        exact ih h

theorem lookup_dictInsert (row : Row) (k : String) (v : JVal) :
    (dictInsert row k v).lookup k = some v := by
  unfold dictInsert
  by_cases h : (row.lookup k).isSome
  · rw [if_pos h]
    exact lookup_map_replace k v row h
  · rw [if_neg h]
    refine lookup_append_of_lookup_none k v row ?_
    cases he : row.lookup k with
    | none => rfl
    | some w => rw [he] at h; simp at h

theorem enrichFrom_length (price : Nat → ℚ) (n : Nat) (rows : List Row) :
    (BackendApi.enrichFrom price n rows).length = rows.length := by
  induction rows generalizing n with
  | nil => rfl
  | cons hd tl ih => simp [BackendApi.enrichFrom, ih]

theorem enrichFrom_getElem? (price : Nat → ℚ) (rows : List Row) (n i : Nat) (row : Row)
    (hrow : rows[i]? = some row) :
    (BackendApi.enrichFrom price n rows)[i]? =
      some (dictInsert row "price" (.jq (pyRound2 (price (n + i))))) := by
  induction rows generalizing n i with
  | nil => simp at hrow
  | cons hd tl ih =>
      cases i with
      | zero =>
          simp only [List.getElem?_cons_zero, Option.some.injEq] at hrow
          subst hrow
          simp [BackendApi.enrichFrom]
      | succ j =>
          simp only [List.getElem?_cons_succ] at hrow
          have := ih (n + 1) j hrow
          simp only [BackendApi.enrichFrom, List.getElem?_cons_succ]
          rw [this]
          ring_nf

theorem bankersRound_bounds (a b : ℤ) (x : ℚ) (ha : (a : ℚ) ≤ x) (hb : x ≤ (b : ℚ)) :
    a ≤ bankersRound x ∧ bankersRound x ≤ b := by
  unfold bankersRound
  have hfl : (a : ℤ) ≤ ⌊x⌋ := Int.le_floor.mpr ha
  have hfu : ⌊x⌋ ≤ b := by
    have := Int.floor_le_floor hb
    simpa using this
  have hfrac0 : (0 : ℚ) ≤ x - ⌊x⌋ := by
    have := Int.floor_le x
    linarith
  constructor
  · split
    · exact hfl
    · split
      · omega
      · split <;> omega
  · split
    · exact hfu
    · next h1 =>
        split
        · next h2 =>
            have hx : (⌊x⌋ : ℚ) + 1/2 < x := by linarith
            have hcast : (⌊x⌋ : ℚ) < b := by linarith
            have hlt : ⌊x⌋ < b := by exact_mod_cast hcast
            omega
        · next h2 =>
            have hfr : x - ⌊x⌋ = 1/2 := le_antisymm (not_lt.mp h2) (not_lt.mp h1)
            have hx : (⌊x⌋ : ℚ) + 1/2 = x := by linarith
            have hhalf : (⌊x⌋ : ℚ) + 1/2 ≤ b := by linarith
            have hlt : ⌊x⌋ < b := by
              by_contra hc
              push_neg at hc
              have hbc : (b : ℚ) ≤ ⌊x⌋ := by exact_mod_cast hc
              linarith
            split <;> omega

theorem pyRound2_bounds (a b : ℤ) (x : ℚ) (ha : (a : ℚ) / 100 ≤ x) (hb : x ≤ (b : ℚ) / 100) :
    (a : ℚ) / 100 ≤ pyRound2 x ∧ pyRound2 x ≤ (b : ℚ) / 100 := by
  unfold pyRound2
  have h1 : (a : ℚ) ≤ 100 * x := by linarith
  have h2 : 100 * x ≤ (b : ℚ) := by linarith
  obtain ⟨hl, hu⟩ := bankersRound_bounds a b (100 * x) h1 h2
  constructor
  · have : (a : ℚ) ≤ (bankersRound (100 * x) : ℚ) := by exact_mod_cast hl
    linarith
  · have : (bankersRound (100 * x) : ℚ) ≤ (b : ℚ) := by exact_mod_cast hu
    linarith

theorem mem_enrichFrom (price : Nat → ℚ) (n : Nat) (rows : List Row) (row' : Row)
    (h : row' ∈ BackendApi.enrichFrom price n rows) :
    ∃ j row, row' = dictInsert row "price" (.jq (pyRound2 (price j))) := by
  induction rows generalizing n with
  | nil => simp [BackendApi.enrichFrom] at h
  | cons hd tl ih =>
      simp only [BackendApi.enrichFrom, List.mem_cons] at h
      rcases h with h | h
      · exact ⟨n, hd, h⟩
      · exact ih (n + 1) h

/-! ## Claim theorems -/

/-- C1: every request into Front `/work` that completes successfully yields
a trace with exactly one root span (the server span of the example-app
tier), at least 5 descendant spans of that root covering the three service
identities example-app, backend-api and db-api, and the trace id minted at
the Front tier appears unchanged on every span of the trace, including all
spans recorded at the Mid and Data tiers. -/
theorem work_trace_root_descendants_traceid (tid : Nat) :
    (ExampleApp.workTrace tid).filter (fun s => s.parent.isNone) =
      [{ traceId := tid, spanId := 0, parent := none,
         service := "example-app", name := "GET /work" }] ∧
    5 ≤ (ExampleApp.workTrace tid).countP
        (fun s => descendsFrom (ExampleApp.workTrace tid) 0 s) ∧
    (∀ svc ∈ ["example-app", "backend-api", "db-api"],
        0 < ((ExampleApp.workTrace tid).filter
              (fun s => descendsFrom (ExampleApp.workTrace tid) 0 s)).countP
            (fun s => s.service == svc)) ∧
    (∀ s ∈ ExampleApp.workTrace tid, s.traceId = tid) := by
  rw [workTrace_eq_workSpanList]
  refine ⟨rfl, of_decide_eq_true rfl, ?_, ?_⟩
  · intro svc hsvc
    fin_cases hsvc <;> exact of_decide_eq_true rfl
  · simp [workSpanList]

/-- C2: the latency tiers of db-api `query`: a roll below 0.80 samples
latency in [10ms, 30ms], a roll in [0.80, 0.95) samples in [30ms, 80ms],
a roll of at least 0.95 samples in [80ms, 300ms] and sets the
`db.slow_query` attribute, and that attribute is set in no other branch.
Latencies are in seconds, so 10ms is 10/1000. -/
theorem querySample_latency_tiers (roll : ℚ) (u : ℚ → ℚ → ℚ)
    (hu : DbApi.UniformOracle u) :
    (roll < 80/100 →
        10/1000 ≤ (DbApi.querySample roll u).1 ∧
        (DbApi.querySample roll u).1 ≤ 30/1000 ∧
        (DbApi.querySample roll u).2 = false) ∧
    (80/100 ≤ roll → roll < 95/100 →
        30/1000 ≤ (DbApi.querySample roll u).1 ∧
        (DbApi.querySample roll u).1 ≤ 80/1000 ∧
        (DbApi.querySample roll u).2 = false) ∧
    (95/100 ≤ roll →
        80/1000 ≤ (DbApi.querySample roll u).1 ∧
        (DbApi.querySample roll u).1 ≤ 300/1000 ∧
        (DbApi.querySample roll u).2 = true) ∧
    ((DbApi.querySample roll u).2 = true ↔ 95/100 ≤ roll) := by
  obtain ⟨h1a, h1b⟩ := hu (10/1000) (30/1000) (by norm_num)
  obtain ⟨h2a, h2b⟩ := hu (30/1000) (80/1000) (by norm_num)
  obtain ⟨h3a, h3b⟩ := hu (80/1000) (300/1000) (by norm_num)
  unfold DbApi.querySample
  split_ifs with hA hB
  · refine ⟨fun _ => ⟨h1a, h1b, rfl⟩, fun hge _ => absurd hA (not_lt.mpr hge),
        fun hge => absurd hA (not_lt.mpr (by linarith)), ?_⟩
    simp only [Bool.false_eq_true, false_iff, not_le]
    linarith
  · refine ⟨fun hlt => absurd hlt hA, fun _ _ => ⟨h2a, h2b, rfl⟩,
        fun hge => absurd hB (not_lt.mpr hge), ?_⟩
    simp only [Bool.false_eq_true, false_iff, not_le]
    linarith
  · refine ⟨fun hlt => absurd hlt hA, fun _ hlt => absurd hlt hB,
        fun _ => ⟨h3a, h3b, rfl⟩, ?_⟩
    simp only [true_iff]
    linarith

/-- Witness for C2: at roll 0 with the left-endpoint uniform oracle, the
fast branch is taken and the latency lies in [10ms, 30ms]. -/
theorem querySample_latency_tiers_witness :
    10/1000 ≤ (DbApi.querySample 0 (fun a _ => a)).1 ∧
    (DbApi.querySample 0 (fun a _ => a)).1 ≤ 30/1000 ∧
    (DbApi.querySample 0 (fun a _ => a)).2 = false :=
  (querySample_latency_tiers 0 (fun a _ => a) (fun a b h => ⟨le_refl a, h⟩)).1
    (by norm_num)

/-- C3: db-api `query` with limit 3 on the fixed 5-record set returns
exactly 3 rows, each with exactly the keys id, name, stock and warehouse,
and the `count` field equals the number of rows; every integer limit
greater than the record count 5 returns all 5 records without error, with
`count` 5 — shown both for the post-parse body `queryCore` at any such
limit and through the full handler at limit "10". -/
theorem query_limit_clamp (limit : Int) (hlim : 5 < limit) :
    (∀ roll u, ∃ qr, DbApi.query (some "products") (some "3") roll u = .ok qr ∧
        qr.rows.length = 3 ∧
        (∀ row ∈ qr.rows, row.map Prod.fst = ["id", "name", "stock", "warehouse"]) ∧
        qr.count = qr.rows.length) ∧
    (∀ table roll u,
        (DbApi.queryCore table limit roll u).rows = DbApi.RECORDS ∧
        (DbApi.queryCore table limit roll u).count = 5) ∧
    (∀ roll u, ∃ qr, DbApi.query (some "products") (some "10") roll u = .ok qr ∧
        qr.rows = DbApi.RECORDS ∧ qr.count = 5) := by
  have h5 : DbApi.RECORDS.length = 5 := rfl
  refine ⟨?_, ?_, ?_⟩
  · intro roll u
    exact ⟨DbApi.queryCore "products" 3 roll u, rfl, rfl, of_decide_eq_true rfl, rfl⟩
  · intro table roll u
    have hrows : (DbApi.queryCore table limit roll u).rows = DbApi.RECORDS := by
      show DbApi.pySliceTo DbApi.RECORDS limit = DbApi.RECORDS
      unfold DbApi.pySliceTo
      rw [if_pos (by omega)]
      exact List.take_of_length_le (by omega)
    refine ⟨hrows, ?_⟩
    show (DbApi.pySliceTo DbApi.RECORDS limit).length = 5
    rw [show DbApi.pySliceTo DbApi.RECORDS limit = DbApi.RECORDS from hrows, h5]
  · intro roll u
    exact ⟨DbApi.queryCore "products" 10 roll u, rfl, rfl, rfl⟩

/-- Witness for C3: at limit 6, `queryCore` returns all 5 records with
count 5. -/
theorem query_limit_clamp_witness :
    (DbApi.queryCore "products" 6 0 (fun a _ => a)).rows = DbApi.RECORDS ∧
    (DbApi.queryCore "products" 6 0 (fun a _ => a)).count = 5 :=
  (query_limit_clamp 6 (by norm_num)).2.1 "products" 0 (fun a _ => a)

/-- Counterexample to C4: for the request `/query?limit=abc` — a limit
parameter `int()` cannot parse — the handler raises an uncaught
`ValueError`, and the response the framework produces is a 500 Internal
Server Error, which is a server error and not a 4xx client error: the
claimed client-error response does not happen. -/
theorem query_nonnumeric_limit_counterexample :
    flaskStatus (DbApi.query (some "products") (some "abc") 0 (fun a _ => a)) = 500 ∧
    ¬ isClientError
        (flaskStatus (DbApi.query (some "products") (some "abc") 0 (fun a _ => a))) ∧
    isServerError
        (flaskStatus (DbApi.query (some "products") (some "abc") 0 (fun a _ => a))) := by
  have h : flaskStatus (DbApi.query (some "products") (some "abc") 0 (fun a _ => a)) = 500 :=
    rfl
  refine ⟨h, ?_, ?_⟩ <;> rw [h]
  · rintro ⟨-, hlt⟩
    exact absurd hlt (by norm_num)
  · exact ⟨by norm_num, by norm_num⟩

/-- C4 amended: for every request to db-api `/query` whose limit parameter
is not parseable as an integer, the handler fails fast by raising
`ValueError`, and the service responds with a 500 server error (not a 4xx
client error); the worker process does not crash — a response is still
produced. -/
theorem query_nonnumeric_limit_amended (s : String) (hs : DbApi.pyInt? s = none)
    (tp : Option String) (roll : ℚ) (u : ℚ → ℚ → ℚ) :
    DbApi.query tp (some s) roll u = .error "ValueError" ∧
    isServerError (flaskStatus (DbApi.query tp (some s) roll u)) ∧
    ¬ isClientError (flaskStatus (DbApi.query tp (some s) roll u)) := by
  have he : DbApi.query tp (some s) roll u = .error "ValueError" := by
    unfold DbApi.query
    simp [hs]
  refine ⟨he, ?_, ?_⟩ <;> rw [he]
  · exact ⟨by norm_num [flaskStatus], by norm_num [flaskStatus]⟩
  · rintro ⟨-, hlt⟩
    have : flaskStatus (Except.error (α := DbApi.QueryResult) "ValueError") = 500 := rfl
    rw [this] at hlt
    exact absurd hlt (by norm_num)

/-- Witness for the amended C4: the limit string "x" is unparseable and
yields the 500 error response. -/
theorem query_nonnumeric_limit_amended_witness :
    DbApi.query (some "products") (some "x") 0 (fun a _ => a) = .error "ValueError" ∧
    isServerError (flaskStatus (DbApi.query (some "products") (some "x") 0 (fun a _ => a))) ∧
    ¬ isClientError (flaskStatus (DbApi.query (some "products") (some "x") 0 (fun a _ => a))) :=
  query_nonnumeric_limit_amended "x" rfl (some "products") 0 (fun a _ => a)

theorem listRange_map_sum (f : Nat → Nat) (n : Nat) :
    ((List.range n).map f).sum = ∑ i in Finset.range n, f i := by
  induction n with
  | zero => rfl
  | succ m ih =>
      rw [List.range_succ, List.map_append, List.sum_append, Finset.sum_range_succ, ih]
      simp

/-- C5: backend-api `compute` always returns result equal to the sum of
i squared over i in [0, 2000) with status "ok", and the returned value is
the same whether or not the 10-percent stall branch is taken — the stall
changes only the elapsed time, never the response. -/
theorem compute_sum_of_squares (stall : Bool) :
    (BackendApi.compute stall).2.1 = ∑ i in Finset.range 2000, i ^ 2 ∧
    (BackendApi.compute stall).2.2 = "ok" ∧
    (BackendApi.compute stall).2 = (BackendApi.compute true).2 ∧
    (BackendApi.compute stall).2 = (BackendApi.compute false).2 := by
  refine ⟨?_, rfl, rfl, rfl⟩
  simp only [BackendApi.compute]
  exact listRange_map_sum (fun i => i ^ 2) 2000

/-- C6: for every list of rows obtained from the data tier, backend-api
`data` succeeds with as many output items as input rows, and every output
row carries a "price" field whose value lies in [1.99, 49.99], assuming
only the `random.uniform(1.99, 49.99)` contract for the per-row draws. -/
theorem data_rowcount_and_price_range (rows : List Row) (price : Nat → ℚ)
    (hp : ∀ i, 199/100 ≤ price i ∧ price i ≤ 4999/100) :
    ∃ resp, BackendApi.data (.ok [("rows", .arr rows)]) price = .ok resp ∧
      resp.items.length = rows.length ∧
      resp.count = rows.length ∧
      ∀ row ∈ resp.items, ∃ p : ℚ, row.lookup "price" = some (.jq p) ∧
        199/100 ≤ p ∧ p ≤ 4999/100 := by
  refine ⟨_, rfl, enrichFrom_length price 0 rows, enrichFrom_length price 0 rows, ?_⟩
  intro row hrow
  obtain ⟨j, row0, rfl⟩ := mem_enrichFrom price 0 rows row hrow
  have hb := pyRound2_bounds 199 4999 (price j)
    (by push_cast; exact (hp j).1) (by push_cast; exact (hp j).2)
  refine ⟨pyRound2 (price j), lookup_dictInsert row0 "price" _, ?_, ?_⟩
  · have h1 := hb.1
    push_cast at h1
    linarith
  · have h2 := hb.2
    push_cast at h2
    linarith

/-- Witness for C6: on the full record set with the constant draw 2, the
handler succeeds with 5 priced items. -/
theorem data_rowcount_and_price_range_witness :
    ∃ resp, BackendApi.data (.ok [("rows", .arr DbApi.RECORDS)]) (fun _ => 2) = .ok resp ∧
      resp.items.length = DbApi.RECORDS.length ∧
      resp.count = DbApi.RECORDS.length ∧
      ∀ row ∈ resp.items, ∃ p : ℚ, row.lookup "price" = some (.jq p) ∧
        199/100 ≤ p ∧ p ≤ 4999/100 :=
  data_rowcount_and_price_range DbApi.RECORDS (fun _ => 2)
    (fun _ => ⟨by norm_num, by norm_num⟩)

/-- C7: backend-api `schema` is a pure proxy — a successful downstream
db-api schema body is returned unmodified, and a failed downstream call
propagates out of the handler uncaught, producing a visible 500 server
error rather than any success response. -/
theorem schema_proxy_propagation (b : Body) (e : String) :
    BackendApi.schema (.ok b) = .ok b ∧
    BackendApi.schema (.error e) = .error e ∧
    isServerError (flaskStatus (BackendApi.schema (.error e))) ∧
    ∀ b', BackendApi.schema (.error e) ≠ .ok b' := by
  refine ⟨rfl, rfl, ?_, ?_⟩
  · show isServerError 500
    exact ⟨by norm_num, by norm_num⟩
  · intro b' hc
    exact Except.noConfusion hc

/-- Counterexample to C8: a well-formed 200 response whose JSON body is an
empty object — parseable but without the expected structure (no "rows",
"items" or "result" key) — is not treated as downstream-unavailable:
backend-api `data` returns a success response with zero default items, and
example-app `work` likewise returns a success built from the defaults
`[]` and `0`, instead of surfacing a failed response. -/
theorem malformed_body_defaults_counterexample :
    List.lookup "rows" ([] : Body) = none ∧
    BackendApi.data (.ok []) (fun _ => 2) = .ok { items := [], count := 0 } ∧
    flaskStatus (BackendApi.data (.ok []) (fun _ => 2)) = 200 ∧
    ExampleApp.work (.ok []) (.ok []) =
      .ok { items := [], result := .jint 0, status := "ok" } ∧
    flaskStatus (ExampleApp.work (.ok []) (.ok [])) = 200 :=
  ⟨rfl, rfl, rfl, rfl, rfl⟩

/-- C8 amended: a downstream call that fails outright — unavailable,
timeout, or a body that JSON parsing rejects — propagates as an error and
surfaces as a 500 at the calling tier; but a parseable JSON body that
merely lacks the expected keys is not treated as unavailable: the calling
tier substitutes the defaults (`[]` for rows and items, `0` for result)
and returns a success response built from them. -/
theorem downstream_error_vs_missing_keys (e : String) (body dbody cbody : Body)
    (p : Nat → ℚ) (cresp : Except String Body)
    (hrows : body.lookup "rows" = none)
    (hitems : dbody.lookup "items" = none)
    (hresult : cbody.lookup "result" = none) :
    (BackendApi.data (.error e) p = .error e ∧
     isServerError (flaskStatus (BackendApi.data (.error e) p))) ∧
    ExampleApp.work (.error e) cresp = .error e ∧
    BackendApi.data (.ok body) p = .ok { items := [], count := 0 } ∧
    ExampleApp.work (.ok dbody) (.ok cbody) =
      .ok { items := [], result := .jint 0, status := "ok" } := by
  refine ⟨⟨rfl, ?_⟩, rfl, ?_, ?_⟩
  · show isServerError 500
    exact ⟨by norm_num, by norm_num⟩
  · simp [BackendApi.data, getRowsD, hrows, BackendApi.enrich, BackendApi.enrichFrom]
  · simp [ExampleApp.work, getRowsD, hitems, ExampleApp.getResultD, hresult]

/-- Witness for the amended C8: a failing downstream call with message
"boom" propagates, and empty JSON object bodies produce the default-built
success responses. -/
theorem downstream_error_vs_missing_keys_witness :
    (BackendApi.data (.error "boom") (fun _ => 2) = .error "boom" ∧
     isServerError (flaskStatus (BackendApi.data (.error "boom") (fun _ => 2)))) ∧
    ExampleApp.work (.error "boom") (.ok []) = .error "boom" ∧
    BackendApi.data (.ok []) (fun _ => 2) = .ok { items := [], count := 0 } ∧
    ExampleApp.work (.ok []) (.ok []) =
      .ok { items := [], result := .jint 0, status := "ok" } :=
  downstream_error_vs_missing_keys "boom" [] [] [] (fun _ => 2) (.ok []) rfl rfl rfl

/-- C9: for every negative integer limit, db-api `query` does not error:
it returns the Python slice RECORDS[:limit] — the first 5 + limit records
when -5 < limit < 0 and zero rows when limit is at most -5 — with `count`
equal to the number of rows returned; the full handler succeeds for any
limit string parsing to such a value. -/
theorem query_negative_limit_slice (limit : Int) (hneg : limit < 0)
    (table : String) (roll : ℚ) (u : ℚ → ℚ → ℚ) :
    (DbApi.queryCore table limit roll u).rows = DbApi.pySliceTo DbApi.RECORDS limit ∧
    (-5 < limit →
        (DbApi.queryCore table limit roll u).rows.length = (5 + limit).toNat) ∧
    (limit ≤ -5 → (DbApi.queryCore table limit roll u).rows = []) ∧
    (DbApi.queryCore table limit roll u).count =
      (DbApi.queryCore table limit roll u).rows.length ∧
    (∀ s tp, DbApi.pyInt? s = some limit →
        DbApi.query tp (some s) roll u =
          .ok (DbApi.queryCore (tp.getD "products") limit roll u)) := by
  have h5 : DbApi.RECORDS.length = 5 := rfl
  have hslice : DbApi.pySliceTo DbApi.RECORDS limit =
      DbApi.RECORDS.take (DbApi.RECORDS.length - limit.natAbs) := by
    unfold DbApi.pySliceTo
    rw [if_neg (by omega)]
  refine ⟨rfl, ?_, ?_, rfl, ?_⟩
  · intro hgt
    show (DbApi.pySliceTo DbApi.RECORDS limit).length = (5 + limit).toNat
    rw [hslice, List.length_take]
    omega
  · intro hle
    show DbApi.pySliceTo DbApi.RECORDS limit = []
    rw [hslice]
    have h0 : DbApi.RECORDS.length - limit.natAbs = 0 := by omega
    rw [h0, List.take_zero]
  · intro s tp hparse
    unfold DbApi.query
    simp [hparse]

/-- Witness for C9: limit -1 yields 4 rows, and the full handler parses
"-1" and succeeds. -/
theorem query_negative_limit_slice_witness :
    (DbApi.queryCore "products" (-1) 0 (fun a _ => a)).rows.length = ((5 : Int) + -1).toNat ∧
    DbApi.query (some "products") (some "-1") 0 (fun a _ => a) =
      .ok (DbApi.queryCore "products" (-1) 0 (fun a _ => a)) := by
  have h := query_negative_limit_slice (-1) (by norm_num) "products" 0 (fun a _ => a)
  exact ⟨h.2.1 (by norm_num), h.2.2.2.2 "-1" (some "products") rfl⟩

/-- C10: the enrichment of backend-api `data` is non-destructive: the
output has one row per input row, and the output row at each index is the
input row with all its key-value pairs unchanged and in place, extended by
exactly the appended "price" pair — a new collection of new rows (the
embedding is a pure function of the input, which is left untouched). -/
theorem enrich_nondestructive (rows : List Row) (price : Nat → ℚ)
    (hfree : ∀ row ∈ rows, row.lookup "price" = none) :
    (BackendApi.enrich rows price).length = rows.length ∧
    (∀ (i : Nat) (row : Row), rows[i]? = some row →
        (BackendApi.enrich rows price)[i]? =
          some (row ++ [("price", JVal.jq (pyRound2 (price i)))])) ∧
    (∀ (i : Nat) (row : Row), rows[i]? = some row → ∀ kv ∈ row,
        ∃ row' : Row, (BackendApi.enrich rows price)[i]? = some row' ∧ kv ∈ row') := by
  have hmain : ∀ (i : Nat) (row : Row), rows[i]? = some row →
      (BackendApi.enrich rows price)[i]? =
        some (row ++ [("price", JVal.jq (pyRound2 (price i)))]) := by
    intro i row hrow
    have hmem : row ∈ rows := by
      have := List.getElem?_eq_some_iff.mp hrow
      obtain ⟨hlt, hget⟩ := this
      exact hget ▸ List.getElem_mem hlt
    have h := enrichFrom_getElem? price rows 0 i row hrow
    rw [BackendApi.enrich, h, Nat.zero_add]
    unfold dictInsert
    rw [if_neg (by rw [hfree row hmem]; simp)]
  refine ⟨enrichFrom_length price 0 rows, hmain, ?_⟩
  intro i row hrow kv hkv
  exact ⟨row ++ [("price", JVal.jq (pyRound2 (price i)))], hmain i row hrow,
    List.mem_append_left _ hkv⟩

/-- Witness for C10: enriching the record set with the constant draw 5
leaves the first record's pairs unchanged and appends the price pair. -/
theorem enrich_nondestructive_witness :
    (BackendApi.enrich DbApi.RECORDS (fun _ => 5))[0]? =
      some ([("id", JVal.jint 1), ("name", JVal.js "widget"),
             ("stock", JVal.jint 142), ("warehouse", JVal.js "A")] ++
            [("price", JVal.jq (pyRound2 5))]) :=
  (enrich_nondestructive DbApi.RECORDS (fun _ => 5) (by decide)).2.1 0
    [("id", JVal.jint 1), ("name", JVal.js "widget"),
     ("stock", JVal.jint 142), ("warehouse", JVal.js "A")] rfl
